import Mathlib

/-
  Verification of the service-execution core of the apiservices backend
  (FastAPI + SQLAlchemy application).

  Shallow embedding of:
  * app/core/fallback_engine.py  — FallbackEngine: freshness check, parallel
    provider race, cached-data fallback (fetch_rc_data, fetch_licence_data,
    _parallel_api_call, _call_api, _is_fresh);
  * app/core/service_engine.py   — ServiceEngine.execute_service and the slug
    dispatch _execute_service_logic;
  * app/api/v1/services.py       — the generic POST /services/{service_slug}
    route;
  * app/models/user.py, app/models/subscription.py, app/models/usage_log.py —
    the credit-bearing data model.

  Modelling conventions:
  * Decimal (Numeric(10,2)) credit amounts are integers (ℤ), read as
    hundredths of a credit: the source only ever adds, subtracts and compares
    these columns, operations under which the Numeric(10,2) grid is closed,
    so the embedding is exact.  The float() conversions in the source are
    treated as exact as well (every value the theorems use is a small
    integer, where float conversion is exact).
  * Python datetimes are `Dt`: the naive wall-clock value in seconds together
    with an optional utcoffset.  `Dt.instant` is the real point in time the
    datetime denotes (naive values are read as UTC, as `datetime.utcnow()` is
    used throughout the source).
  * Python call-site keyword binding is embedded explicitly (missingArgs /
    invalidKwargs), because three call sites in the source do not match the
    callee's signature and therefore raise TypeError:
      - services.py L94-98 omits the required `subscription` parameter of
        ServiceEngine.execute_service (service_engine.py L52-58);
      - service_engine.py L278 omits the required `dob` parameter of
        FallbackEngine.fetch_licence_data (fallback_engine.py L54);
      - service_engine.py L129-143 passes `success=` to ApiUsageLog, which has
        no such mapped attribute (app/models/usage_log.py); SQLAlchemy's
        declarative constructor raises TypeError for unknown keyword
        arguments.
  * aiohttp payloads are opaque: `Payload := String`.
-/

/-- A Python `datetime`: naive wall-clock value (seconds) plus an optional
`utcoffset` (seconds); `tz = none` models a timezone-naive datetime. -/
structure Dt where
  wall : ℤ
  tz : Option ℤ
  deriving DecidableEq

/-- The real point in time (seconds, UTC) a `Dt` denotes: an aware datetime
denotes `wall - utcoffset`; a naive datetime is read as UTC (the source always
produces naive datetimes with `datetime.utcnow()`). -/
def Dt.instant (d : Dt) : ℤ :=
  d.wall - d.tz.getD 0

/-- FallbackEngine._is_fresh (fallback_engine.py L163-179).  `fetched_at is
None` returns False.  If `fetched_at` is timezone-aware the source calls
`fetched_at.replace(tzinfo=None)`, which keeps the wall-clock fields and drops
the offset; either way the comparison is `utcnow() - wall < timedelta(hours =
ttl_hours)`.  (ServiceEngine._is_fresh, service_engine.py L834-849, is the
same function verbatim.) -/
def is_fresh (now : ℤ) (fetched_at : Option Dt) (ttl_hours : ℤ) : Bool :=
  match fetched_at with
  | none => false
  | some d =>
    match d.tz with
    | some _ => decide (now - d.wall < ttl_hours * 3600)
    | none => decide (now - d.wall < ttl_hours * 3600)

/-- Modelled from the spec (for refinement comparison with `is_fresh`):
"true iff now - record.fetched_at < ttl", reading `fetched_at` as the point in
time it denotes. -/
def spec_is_fresh (now : ℤ) (fetched_at : Option Dt) (ttl_hours : ℤ) : Bool :=
  match fetched_at with
  | none => false
  | some d => decide (now - d.instant < ttl_hours * 3600)

/-- Domain TTLs from app/config.py L36-38. -/
def RC_DATA_TTL_HOURS : ℤ := 24
def DL_DATA_TTL_HOURS : ℤ := 168
def CHALLAN_DATA_TTL_HOURS : ℤ := 12

/-- Response payloads are opaque to the core. -/
abbrev Payload := String

/-- The source tag attached to resolved data: `db` is the local cache table
(the spec calls this source "cache"); `api1/api2/api3` are the configured
upstream providers (the spec's provider_1/provider_2/provider_3). -/
inductive Source
  | db
  | api1
  | api2
  | api3
  deriving DecidableEq

/-- What one upstream provider does for this request (fallback_engine.py
L139-161): raise inside the HTTP call, answer with a non-200 status, answer
200 with `success` false in the body, or answer 200 with `success` true. -/
inductive ProviderBehavior
  | raises
  | httpStatus (code : ℕ)
  | notSuccess (body : Payload)
  | success (body : Payload)
  deriving DecidableEq

/-- One configured provider for this request: its behavior and the time (ms)
at which its call completes (bounded by the 5s ClientTimeout, fallback_engine.py
L22). -/
structure ProviderSim where
  behavior : ProviderBehavior
  latency : ℕ
  deriving DecidableEq

/-- Body of FallbackEngine._call_api inside the `try` (fallback_engine.py
L148-158): an exception escapes as `.error`; a non-200 status or a body whose
`success` flag is false falls through to `return None, source`. -/
def call_api_try (b : ProviderBehavior) (s : Source) :
    Except Unit (Option Payload × Source) :=
  match b with
  | ProviderBehavior.raises => Except.error ()
  | ProviderBehavior.httpStatus _ => Except.ok (none, s)
  | ProviderBehavior.notSuccess _ => Except.ok (none, s)
  | ProviderBehavior.success d => Except.ok (some d, s)

/-- FallbackEngine._call_api (fallback_engine.py L139-161): the `except` arm
catches every exception and returns `(None, source)`. -/
def call_api (b : ProviderBehavior) (s : Source) : Option Payload × Source :=
  match call_api_try b s with
  | Except.ok r => r
  | Except.error _ => (none, s)

/-- The list of task results produced by `asyncio.gather(*tasks,
return_exceptions=True)` (fallback_engine.py L128), in task-creation order
(api1, api2, api3 — L116-121).  The tasks themselves never raise because
_call_api catches internally. -/
def gather_results (providers : List (ProviderSim × Source)) :
    List (Option Payload × Source) :=
  providers.map fun p => call_api p.1.behavior p.2

/-- The scan over gather's results (fallback_engine.py L131-134): the first
entry that is a tuple whose first component is not None. -/
def first_tuple_success : List (Option Payload × Source) → Option (Payload × Source)
  | [] => none
  | (some d, s) :: _ => some (d, s)
  | (none, _) :: rest => first_tuple_success rest

/-- FallbackEngine._parallel_api_call (fallback_engine.py L104-137): empty
configuration returns None; otherwise all tasks are awaited via asyncio.gather
and the first successful result in task order is returned. -/
def parallel_api_call (providers : List (ProviderSim × Source)) :
    Option (Payload × Source) :=
  if providers = [] then none
  else first_tuple_success (gather_results providers)

/-- The time at which _parallel_api_call returns: `asyncio.gather` awaits every
task, so the caller resumes only once the slowest task has completed. -/
def parallel_api_call_time (providers : List (ProviderSim × Source)) : ℕ :=
  (providers.map fun p => p.1.latency).foldr Nat.max 0

/-- Modelled from the spec (for refinement comparison with
`parallel_api_call`): "first-to-complete-successfully wins; ties broken by
provider enumeration order". -/
def spec_firstSuccessfulCompletion (providers : List (ProviderSim × Source)) :
    Option (Payload × Source) :=
  ((providers.filterMap fun p =>
      match p.1.behavior with
      | ProviderBehavior.success d => some (p.1.latency, d, p.2)
      | _ => none).foldl
    (fun acc x =>
      match acc with
      | none => some x
      | some y => if x.1 < y.1 then some x else some y) none).map
    fun x => (x.2.1, x.2.2)

/-- A row of a domain cache table (e.g. RCData): opaque payload plus its
`fetched_at` timestamp. -/
structure CacheRecord where
  payload : Payload
  fetched_at : Option Dt
  deriving DecidableEq

/-- Everything one resolve consults: the cached row for the key (if any), the
current time, and the configured providers in enumeration order. -/
structure ResolveEnv where
  cached : Option CacheRecord
  now : ℤ
  providers : List (ProviderSim × Source)
  deriving DecidableEq

/-- FallbackEngine.fetch_rc_data (fallback_engine.py L24-52): fresh cache hit
is returned at once tagged "db"; otherwise the provider race runs; if it fails
and a (stale) cached row exists, the stale row is returned tagged "db"
(L48-50); only with no cached row and no provider success does the call return
(None, None), here `none`.  The background cache update (L44) does not affect
the returned value and is not modelled. -/
def fetch_rc_data (env : ResolveEnv) : Option (Payload × Source) :=
  match env.cached with
  | some rec =>
    if is_fresh env.now rec.fetched_at RC_DATA_TTL_HOURS then
      some (rec.payload, Source.db)
    else
      match parallel_api_call env.providers with
      | some r => some r
      | none => some (rec.payload, Source.db)
  | none =>
    match parallel_api_call env.providers with
    | some r => some r
    | none => none

/-- FallbackEngine.fetch_licence_data (fallback_engine.py L54-77): identical
shape to fetch_rc_data with the licence TTL.  (Unreachable from the engine's
driving-licence branch, which raises TypeError before the call — see
`engine_fetch_licence_args`.) -/
def fetch_licence_data (env : ResolveEnv) : Option (Payload × Source) :=
  match env.cached with
  | some rec =>
    if is_fresh env.now rec.fetched_at DL_DATA_TTL_HOURS then
      some (rec.payload, Source.db)
    else
      match parallel_api_call env.providers with
      | some r => some r
      | none => some (rec.payload, Source.db)
  | none =>
    match parallel_api_call env.providers with
    | some r => some r
    | none => none

/-! ## Python call-site binding

Three call sites in the source pass argument sets that do not match the
callee.  Python raises TypeError when binding a call whose required parameters
are not all supplied, and SQLAlchemy's declarative constructor raises
TypeError when a keyword argument is not a mapped attribute of the model. -/

/-- Required parameters of the callee that the call site does not supply.
A nonempty result means the call raises TypeError at the call site. -/
def missingArgs (required provided : List String) : List String :=
  required.filter fun p => !(provided.contains p)

/-- Keyword arguments at the call site that are not attributes of the model
class.  A nonempty result means SQLAlchemy's declarative constructor raises
TypeError ("invalid keyword argument"). -/
def invalidKwargs (allowed provided : List String) : List String :=
  provided.filter fun p => !(allowed.contains p)

/-- Parameters of ServiceEngine.execute_service (service_engine.py L52-58);
all are required (no defaults). -/
def execute_service_params : List String :=
  ["service", "api_key", "subscription", "payload"]

/-- Keyword arguments supplied by the generic route (services.py L94-98). -/
def route_execute_kwargs : List String :=
  ["service", "api_key", "payload"]

/-- Parameters of FallbackEngine.fetch_licence_data (fallback_engine.py L54);
both are required. -/
def fetch_licence_data_params : List String :=
  ["dl_no", "dob"]

/-- Arguments supplied at the engine's driving-licence branch
(service_engine.py L278): only the licence number. -/
def engine_fetch_licence_args : List String :=
  ["dl_no"]

/-- Mapped attributes of ApiUsageLog (app/models/usage_log.py L8-37): the
columns and the relationship names.  There is no `success` attribute. -/
def api_usage_log_attrs : List String :=
  ["id", "user_id", "api_key_id", "service_id", "subscription_id",
   "endpoint_type", "request_params", "response_status", "response_time_ms",
   "data_source", "credits_deducted", "credits_before", "credits_after",
   "created_at", "user", "api_key", "service", "subscription"]

/-- Keyword arguments passed to ApiUsageLog(...) by the engine
(service_engine.py L129-143). -/
def engine_usage_log_kwargs : List String :=
  ["user_id", "api_key_id", "service_id", "subscription_id", "endpoint_type",
   "request_params", "response_status", "response_time_ms", "data_source",
   "credits_deducted", "credits_before", "credits_after", "success"]

/-! ## Credit-bearing data model -/

/-- User credit columns (app/models/user.py L43-44), Numeric(10,2). -/
structure UserAccount where
  total_credits : ℤ
  credits_used : ℤ
  deriving DecidableEq

/-- SubscriptionStatus (app/models/subscription.py L9-12). -/
inductive SubStatus
  | active
  | expired
  | cancelled
  deriving DecidableEq

/-- Subscription fields the engine reads (app/models/subscription.py
L21-25). -/
structure Subscription where
  status : SubStatus
  credits_remaining : ℤ
  expires_at : Option Dt
  deriving DecidableEq

/-- ServiceDescriptor fields the engine reads. -/
structure Service where
  slug : String
  price_per_call : ℤ
  deriving DecidableEq

/-- The fields of a usage record the claims are about (credits_deducted,
before/after snapshots, and the `success` flag the engine tries to set). -/
structure UsageRecord where
  credits_deducted : ℤ
  credits_before : ℤ
  credits_after : ℤ
  success : Bool
  deriving DecidableEq

/-- The committed database state one engine call can touch: the caller's
account, the optional subscription passed to the engine, and the usage-log
table. -/
structure EngineState where
  user : UserAccount
  sub : Option Subscription
  usage_logs : List UsageRecord
  deriving DecidableEq

/-- How one engine call terminates, as the route observes it
(services.py L100-114): normal return, ValueError (mapped to 400),
HTTPException 404 (re-raised), or any other exception such as TypeError
(mapped to 500). -/
inductive Outcome
  | ok (result : Payload) (source : Source)
  | valueError
  | notFound
  | typeError
  deriving DecidableEq

/-- JSON request payloads, as string key/value lookups. -/
abbrev Params := List (String × String)

/-- Python truthiness of `payload.get(k)`: None and the empty string are
falsy. -/
def truthy : Option String → Bool
  | none => false
  | some s => !s.isEmpty

/-- Python `a or b` over two `payload.get` results. -/
def pyOr (a b : Option String) : Option String :=
  if truthy a then a else b

/-- Result of ServiceEngine._execute_service_logic as the engine's caller sees
it: data with its source tag, or one of the exceptions it raises. -/
inductive LogicResult
  | ok (result : Payload) (source : Source)
  | valueError
  | notFound
  | typeError
  deriving DecidableEq

/-- ServiceEngine._execute_service_logic (service_engine.py L200-369),
embedded for the two slugs the claims exercise.  The
"vehicle-rc-verification" branch (L204-215): a falsy reg_no raises ValueError;
a None resolution raises HTTPException 404.  The "driving-licence" branch
(L274-285): a falsy dl_no raises ValueError; otherwise the source calls
`self.fallback_engine.fetch_licence_data(dl_no)`, omitting the required `dob`
parameter, which raises TypeError before the resolver runs.  The final else
(L368-369) raises ValueError for an unknown slug; the other per-service
branches of the source are not embedded and no theorem evaluates this
definition at their slugs. -/
def execute_service_logic (slug : String) (payload : Params) (env : ResolveEnv) :
    LogicResult :=
  if slug = "vehicle-rc-verification" then
    if !(truthy (pyOr (payload.lookup ("reg_no")) (payload.lookup ("regNo")))) then
      LogicResult.valueError
    else
      match fetch_rc_data env with
      | none => LogicResult.notFound
      | some (p, s) => LogicResult.ok p s
  else if slug = "driving-licence" then
    if !(truthy (pyOr (payload.lookup ("dl_no")) (payload.lookup ("dlNo")))) then
      LogicResult.valueError
    else
      if missingArgs fetch_licence_data_params engine_fetch_licence_args ≠ [] then
        LogicResult.typeError
      else
        match fetch_licence_data env with
        | none => LogicResult.notFound
        | some (p, s) => LogicResult.ok p s
  else
    LogicResult.valueError

/-- Steps 1-2 of ServiceEngine.execute_service (service_engine.py L81-106):
subscription status, expiry (expires_at is made timezone-aware UTC if naive,
then compared with now) and sub-balance check when a subscription is present;
otherwise the account-balance check `total_credits - credits_used >=
price_per_call`.  `some .valueError` means the corresponding ValueError is
raised; `none` means the checks passed. -/
def credit_check (service : Service) (st : EngineState) (now : ℤ) :
    Option Outcome :=
  match st.sub with
  | some sub =>
    if sub.status ≠ SubStatus.active then some Outcome.valueError
    else if (match sub.expires_at with
             | some e => decide (e.instant < now)
             | none => false) then some Outcome.valueError
    else if sub.credits_remaining < service.price_per_call then
      some Outcome.valueError
    else none
  | none =>
    if st.user.total_credits - st.user.credits_used < service.price_per_call then
      some Outcome.valueError
    else none

/-- Step 4 of ServiceEngine.execute_service (service_engine.py L116-125): the
in-memory deduction — the subscription sub-balance (when present) and, in
every case, the user's credits_used are debited by the full price.  Note that
no check of `credits_used` against `total_credits` guards this when a
subscription is present. -/
def deduct_credits (st : EngineState) (amount : ℤ) : EngineState :=
  { st with
    user := { st.user with credits_used := st.user.credits_used + amount }
    sub := st.sub.map fun sub =>
      { sub with credits_remaining := sub.credits_remaining - amount } }

/-- ServiceEngine.execute_service (service_engine.py L52-198), called with all
four arguments.  The returned EngineState is the committed database state
after the call: every raising path leaves it unchanged (db.commit() at L149 is
the only commit, and app/database.py get_db rolls the session back when an
exception propagates).  After a successful resolution the engine deducts
credits in memory and then constructs `ApiUsageLog(..., success=True)`
(L129-143); since `success` is not a mapped attribute of ApiUsageLog, the
declarative constructor raises TypeError there, before db.add/commit, so the
in-memory deduction is rolled back and the nominal success path (L144-198) is
unreachable in the source as written. -/
def execute_service (service : Service) (payload : Params) (env : ResolveEnv)
    (st : EngineState) (now : ℤ) : Outcome × EngineState :=
  match credit_check service st now with
  | some err => (err, st)
  | none =>
    match execute_service_logic service.slug payload env with
    | LogicResult.valueError => (Outcome.valueError, st)
    | LogicResult.notFound => (Outcome.notFound, st)
    | LogicResult.typeError => (Outcome.typeError, st)
    | LogicResult.ok result source =>
      let credits_before : ℤ :=
        match st.sub with
        | some sub => sub.credits_remaining
        | none => st.user.total_credits - st.user.credits_used
      let debited := deduct_credits st service.price_per_call
      let credits_after : ℤ :=
        match debited.sub with
        | some sub => sub.credits_remaining
        | none => debited.user.total_credits - debited.user.credits_used
      if invalidKwargs api_usage_log_attrs engine_usage_log_kwargs ≠ [] then
        (Outcome.typeError, st)
      else
        (Outcome.ok result source,
         { debited with
           usage_logs := debited.usage_logs ++
             [⟨service.price_per_call, credits_before, credits_after, true⟩] })

/-- What the generic route returns: a body, or an HTTP error status. -/
inductive RouteResponse
  | ok (body : Payload)
  | error (httpStatus : ℕ)
  deriving DecidableEq

/-- The generic route POST /services/{service_slug} (services.py L24-114),
after authentication: service lookup (404 when absent/inactive), API-key
access check (403), then
`service_engine.execute_service(service=…, api_key=…, payload=…)` inside
try/except.  Binding that call raises TypeError (the required `subscription`
parameter is not supplied), which `except Exception` maps to 500 — before the
engine body, and with it any resolution or deduction, can run.  The else
branch maps the engine's outcomes the way the route's except clauses do
(HTTPException re-raised, ValueError → 400, anything else → 500); it is
unreachable in the source as written. -/
def route_execute_service (service : Option Service) (hasAccess : Bool)
    (payload : Params) (env : ResolveEnv) (st : EngineState) (now : ℤ) :
    RouteResponse × EngineState :=
  match service with
  | none => (RouteResponse.error 404, st)
  | some svc =>
    if !hasAccess then (RouteResponse.error 403, st)
    else if missingArgs execute_service_params route_execute_kwargs ≠ [] then
      (RouteResponse.error 500, st)
    else
      match execute_service svc payload env st now with
      | (Outcome.ok body _, st2) => (RouteResponse.ok body, st2)
      | (Outcome.valueError, st2) => (RouteResponse.error 400, st2)
      | (Outcome.notFound, st2) => (RouteResponse.error 404, st2)
      | (Outcome.typeError, st2) => (RouteResponse.error 500, st2)

/-! ## Interleaved executions against one account

Claim C1 is about concurrent calls.  ServiceEngine.execute_service has no
lock, no SELECT FOR UPDATE and no serializable transaction around the balance
check and the deduction; the two are separated by the awaited
`self._execute_service_logic(...)` call (service_engine.py L110), a suspension
point at which the event loop runs other requests.  Each HTTP request gets its
own AsyncSession (app/database.py get_db) and loads its own copy of the User
row (service_engine.py L74-75), so the check reads the committed value and the
deduction writes check-time-snapshot + price back through that session.

The model below runs several such calls, each split into the atomic segments
the event loop actually interleaves (the no-subscription path, with the
resolution succeeding).  `committed_used` is the users table's committed
credits_used value.  No step ever commits, because every call raises TypeError
at the ApiUsageLog constructor (service_engine.py L142) before reaching
db.commit() (L149). -/

/-- Progress of one in-flight execute_service call. -/
inductive CallPhase
  /-- Has not yet run its first segment (load user + checks, L74-106). -/
  | ready
  /-- Loaded the user, read `snapshot = credits_used`, and passed the balance
  check; suspended in the awaited service logic (L110). -/
  | approved (snapshot : ℤ)
  /-- Failed the balance check: ValueError raised, nothing written. -/
  | rejected
  /-- Second segment ran: applied `credits_used = snapshot + price` in its own
  session (L119), then raised TypeError constructing ApiUsageLog (L129-143);
  the session is rolled back, so `attemptedWrite` never commits. -/
  | aborted (attemptedWrite : ℤ)
  deriving DecidableEq

/-- Several concurrent calls (all for the same service price) against one
account. -/
structure LedgerSim where
  total_credits : ℤ
  price : ℤ
  committed_used : ℤ
  calls : List CallPhase
  deriving DecidableEq

/-- One atomic segment of one call.  `ready` runs the load+check segment
against the committed value; `approved` runs the deduct+log segment (which
aborts at the ApiUsageLog constructor, leaving `committed_used` unchanged). -/
def stepCall (total price committed : ℤ) : CallPhase → CallPhase
  | CallPhase.ready =>
    if total - committed < price then CallPhase.rejected
    else CallPhase.approved committed
  | CallPhase.approved s => CallPhase.aborted (s + price)
  | CallPhase.rejected => CallPhase.rejected
  | CallPhase.aborted w => CallPhase.aborted w

/-- The event loop schedules one segment of call `i`. -/
def LedgerSim.step (sim : LedgerSim) (i : ℕ) : LedgerSim :=
  match sim.calls.get? i with
  | none => sim
  | some c =>
    { sim with
      calls := sim.calls.set i
        (stepCall sim.total_credits sim.price sim.committed_used c) }

/-- Run a whole interleaving. -/
def LedgerSim.run (sim : LedgerSim) (schedule : List ℕ) : LedgerSim :=
  schedule.foldl LedgerSim.step sim

/-- Calls that passed the balance check and applied their deduction. -/
def LedgerSim.debitedCount (sim : LedgerSim) : ℕ :=
  (sim.calls.filter fun c =>
    match c with
    | CallPhase.aborted _ => true
    | _ => false).length

/-! ## Helper lemmas about the provider race -/

/-- Whether a provider behavior is the successful case. -/
def ProviderBehavior.isSuccess : ProviderBehavior → Bool
  | ProviderBehavior.success _ => true
  | _ => false

/-- The selection rule _parallel_api_call actually implements, written
directly: first configured provider whose call succeeded, in enumeration
order, ignoring all completion times. -/
def enum_first_success : List (ProviderSim × Source) → Option (Payload × Source)
  | [] => none
  | (p, s) :: rest =>
    match p.behavior with
    | ProviderBehavior.success d => some (d, s)
    | _ => enum_first_success rest

theorem first_tuple_success_gather (l : List (ProviderSim × Source)) :
    first_tuple_success (gather_results l) = enum_first_success l := by
  induction l with
  | nil => rfl
  | cons q rest ih =>
    obtain ⟨p, s⟩ := q
    cases hb : p.behavior <;>
      simp only [gather_results, List.map_cons, call_api, call_api_try, hb,
        first_tuple_success, enum_first_success] <;>
      exact ih

theorem parallel_api_call_eq_enum (l : List (ProviderSim × Source)) :
    parallel_api_call l = enum_first_success l := by
  cases l with
  | nil => rfl
  | cons q rest =>
    rw [parallel_api_call, if_neg (by simp), first_tuple_success_gather]

theorem enum_first_success_eq_none_iff (l : List (ProviderSim × Source)) :
    enum_first_success l = none ↔
      ∀ p ∈ l, p.1.behavior.isSuccess = false := by
  induction l with
  | nil => simp [enum_first_success]
  | cons q rest ih =>
    obtain ⟨p, s⟩ := q
    cases hb : p.behavior <;>
      simp [enum_first_success, hb, ih, ProviderBehavior.isSuccess]

theorem parallel_api_call_eq_none_iff (l : List (ProviderSim × Source)) :
    parallel_api_call l = none ↔
      ∀ p ∈ l, p.1.behavior.isSuccess = false := by
  rw [parallel_api_call_eq_enum, enum_first_success_eq_none_iff]

theorem enum_first_success_skip (pre post : List (ProviderSim × Source))
    (q : ProviderSim × Source) (hq : q.1.behavior.isSuccess = false) :
    enum_first_success (pre ++ q :: post) = enum_first_success (pre ++ post) := by
  induction pre with
  | nil =>
    obtain ⟨p, s⟩ := q
    cases hb : p.behavior <;>
      simp_all [enum_first_success, ProviderBehavior.isSuccess, hb]
  | cons r pre ih =>
    obtain ⟨p, s⟩ := r
    cases hb : p.behavior <;>
      simp [enum_first_success, hb, ih]

theorem latency_le_parallel_api_call_time (l : List (ProviderSim × Source)) :
    ∀ p ∈ l, p.1.latency ≤ parallel_api_call_time l := by
  induction l with
  | nil =>
    intro p hp
    cases hp
  | cons q rest ih =>
    intro p hp
    have hq : parallel_api_call_time (q :: rest) =
        Nat.max q.1.latency (parallel_api_call_time rest) := rfl
    rw [List.mem_cons] at hp
    rcases hp with h | h
    · rw [h, hq]
      exact Nat.le_max_left _ _
    · exact Nat.le_trans (ih p h) (hq ▸ Nat.le_max_right _ _)

theorem fetch_rc_data_eq_none_iff (env : ResolveEnv) :
    fetch_rc_data env = none ↔
      env.cached = none ∧ parallel_api_call env.providers = none := by
  cases hc : env.cached with
  | none =>
    cases hp : parallel_api_call env.providers <;> simp [fetch_rc_data, hc, hp]
  | some rec =>
    cases hf : is_fresh env.now rec.fetched_at RC_DATA_TTL_HOURS <;>
      cases hp : parallel_api_call env.providers <;>
        simp [fetch_rc_data, hc, hf, hp]

/-! ## Claims about the Fallback Resolver -/

/-- Two providers that both succeed: provider 2 completes at 100ms, provider 1
only at 5000ms. -/
def c5_both_succeed : List (ProviderSim × Source) :=
  [(⟨ProviderBehavior.success ("payload-from-api1"), 5000⟩, Source.api1),
   (⟨ProviderBehavior.success ("payload-from-api2"), 100⟩, Source.api2)]

/-- Provider 1 times out (raises) at 5000ms; provider 2 succeeds at 100ms. -/
def c5_api1_times_out : List (ProviderSim × Source) :=
  [(⟨ProviderBehavior.raises, 5000⟩, Source.api1),
   (⟨ProviderBehavior.success ("payload-from-api2"), 100⟩, Source.api2)]

/-- C5 counterexample: the resolver does not return the first provider to
complete successfully.  With api1 succeeding at 5000ms and api2 succeeding at
100ms, the claimed rule picks api2's result, but _parallel_api_call (an
asyncio.gather over all tasks followed by a scan in task order) returns
api1's result; and in the claim's own example (api2 succeeds at 100ms, api1
times out at 5000ms) the resolver resumes only at 5000ms — it does wait for
provider 1. -/
theorem c5_gather_not_first_to_complete_cex :
    parallel_api_call c5_both_succeed =
      some (("payload-from-api1"), Source.api1) ∧
    spec_firstSuccessfulCompletion c5_both_succeed =
      some (("payload-from-api2"), Source.api2) ∧
    parallel_api_call c5_both_succeed ≠
      spec_firstSuccessfulCompletion c5_both_succeed ∧
    parallel_api_call_time c5_api1_times_out = 5000 := by
  refine ⟨rfl, rfl, ?_, rfl⟩
  decide

/-- C5 (amended): when the cache is not fresh the resolver invokes every
configured provider concurrently, waits for all of them to complete (it
resumes no earlier than every provider's completion, each bounded by the 5s
per-call timeout), and then returns the result of the first successful
provider in enumeration order (api1 before api2 before api3), regardless of
completion times. -/
theorem c5_enumeration_order_selection (providers : List (ProviderSim × Source)) :
    parallel_api_call providers = enum_first_success providers ∧
    ∀ p ∈ providers, p.1.latency ≤ parallel_api_call_time providers :=
  ⟨parallel_api_call_eq_enum providers,
   latency_le_parallel_api_call_time providers⟩

/-- C5 witness: the amended statement applied to the concrete two-provider
configuration in which api1 times out. -/
theorem c5_enumeration_order_selection_witness :
    parallel_api_call c5_api1_times_out = enum_first_success c5_api1_times_out ∧
    (5000 : ℕ) ≤ parallel_api_call_time c5_api1_times_out :=
  ⟨(c5_enumeration_order_selection c5_api1_times_out).1,
   (c5_enumeration_order_selection c5_api1_times_out).2
     (⟨ProviderBehavior.raises, 5000⟩, Source.api1) (by decide)⟩

/-- C6: stale-serve-on-total-failure.  If a cached record exists (fresh or
stale) and every configured provider fails (including the case of no
configured provider), fetch_rc_data returns the cached payload tagged with the
database/cache source (`Source.db`, the code's "db" tag for what the spec
calls source "cache"); and it returns NotFound (`none`) exactly when no cached
record exists and no provider succeeds. -/
theorem c6_stale_serve_on_total_failure (env : ResolveEnv) (rec : CacheRecord)
    (hc : env.cached = some rec)
    (hfail : ∀ p ∈ env.providers, p.1.behavior.isSuccess = false) :
    fetch_rc_data env = some (rec.payload, Source.db) ∧
    ∀ env2 : ResolveEnv,
      (fetch_rc_data env2 = none ↔
        env2.cached = none ∧
        ∀ p ∈ env2.providers, p.1.behavior.isSuccess = false) := by
  have hp : parallel_api_call env.providers = none :=
    (parallel_api_call_eq_none_iff env.providers).mpr hfail
  constructor
  · cases hf : is_fresh env.now rec.fetched_at RC_DATA_TTL_HOURS <;>
      simp [fetch_rc_data, hc, hf, hp]
  · intro env2
    rw [fetch_rc_data_eq_none_iff, parallel_api_call_eq_none_iff]

/-- A stale cached record (fetched 1,000,000s before now, far beyond the 24h
RC TTL) with a single failing provider configured. -/
def c6_env : ResolveEnv :=
  ⟨some ⟨("stale-rc-record"), some ⟨0, none⟩⟩, 1000000,
   [(⟨ProviderBehavior.raises, 5000⟩, Source.api1)]⟩

/-- C6 witness: the stale record is served, tagged `Source.db`. -/
theorem c6_stale_serve_on_total_failure_witness :
    fetch_rc_data c6_env = some (("stale-rc-record"), Source.db) :=
  (c6_stale_serve_on_total_failure c6_env ⟨("stale-rc-record"), some ⟨0, none⟩⟩
    rfl (by decide)).1

/-- C7 counterexample: the freshness check is not "true iff
now - fetched_at < ttl" for timezone-aware timestamps.  For a record fetched
3599s ago according to its own offset (wall 6000, utcoffset -1000, so instant
7000 with now = 10000) and a 1h TTL, the timestamp is within TTL, yet
_is_fresh drops the offset and compares wall-clock values, computing an age of
4000s ≥ 3600s and returning False. -/
theorem c7_freshness_offset_cex :
    ¬ (is_fresh 10000 (some ⟨6000, some (-1000)⟩) 1 = true ↔
       10000 - Dt.instant ⟨6000, some (-1000)⟩ < 1 * 3600) := by
  decide

/-- C7 (amended): for a missing timestamp _is_fresh returns not-fresh rather
than raising, and for timezone-naive timestamps and aware timestamps with a
zero offset (UTC) — the only aware values the check compares consistently with
its `datetime.utcnow()` reference, since it drops the offset — _is_fresh is
true exactly when now - fetched_at < ttl; an aware timestamp with a non-zero
offset is compared by wall clock, where the iff can fail. -/
theorem c7_freshness_amended (now ttl : ℤ) (d : Dt)
    (h : d.tz = none ∨ d.tz = some 0) :
    is_fresh now none ttl = false ∧
    (is_fresh now (some d) ttl = true ↔ now - d.instant < ttl * 3600) := by
  refine ⟨rfl, ?_⟩
  rcases h with h | h <;> simp [is_fresh, Dt.instant, h]

/-- C7 witness: a naive timestamp aged ttl - 1s is fresh (both sides of the
iff hold at wall 3601, now 7200, 1h TTL). -/
theorem c7_freshness_amended_witness :
    is_fresh 7200 none 1 = false ∧
    (is_fresh 7200 (some ⟨3601, none⟩) 1 = true ↔
      7200 - Dt.instant ⟨3601, none⟩ < 1 * 3600) :=
  c7_freshness_amended 7200 1 ⟨3601, none⟩ (Or.inl rfl)

/-- C9: provider failures are contained.  (i) whenever the body of _call_api
raises, the surrounding except arm turns it into the non-success result
(None, source) — no exception propagates; (ii) removing one failing provider
from the configuration does not change the resolver's selection, so no single
provider failure is fatal; (iii) fetch_rc_data yields NotFound exactly on
total exhaustion: no cached record and no successful provider. -/
theorem c9_provider_failure_contained :
    (∀ b s, call_api_try b s = Except.error () → call_api b s = (none, s)) ∧
    (∀ pre post (q : ProviderSim × Source), q.1.behavior.isSuccess = false →
      parallel_api_call (pre ++ q :: post) = parallel_api_call (pre ++ post)) ∧
    (∀ env : ResolveEnv, fetch_rc_data env = none ↔
      env.cached = none ∧ ∀ p ∈ env.providers, p.1.behavior.isSuccess = false) := by
  refine ⟨?_, ?_, ?_⟩
  · intro b s h
    rw [call_api, h]
  · intro pre post q hq
    rw [parallel_api_call_eq_enum, parallel_api_call_eq_enum,
      enum_first_success_skip pre post q hq]
  · intro env
    rw [fetch_rc_data_eq_none_iff, parallel_api_call_eq_none_iff]

/-- C9 witness: a raising provider is converted to (None, source); and with no
cached record and only that failing provider configured, fetch_rc_data
returns NotFound (the total-exhaustion case). -/
theorem c9_provider_failure_contained_witness :
    call_api ProviderBehavior.raises Source.api1 = (none, Source.api1) ∧
    fetch_rc_data ⟨none, 0, [(⟨ProviderBehavior.raises, 5000⟩, Source.api1)]⟩ =
      none :=
  ⟨c9_provider_failure_contained.1 ProviderBehavior.raises Source.api1 rfl,
   (c9_provider_failure_contained.2.2 _).mpr ⟨rfl, by decide⟩⟩

/-! ## Claims about the Service Execution Engine and the generic route -/

/-- An empty resolver environment: no cached record, no providers. -/
def env_empty : ResolveEnv := ⟨none, 0, []⟩

/-- C4: for every request through POST /services/{service_slug} that reaches
the engine call (service found and active, API key has access), the route
invokes ServiceEngine.execute_service without its required `subscription`
parameter, so binding the call raises TypeError, which the route's generic
except arm maps to HTTP 500 — before the engine body runs, hence before any
data resolution or credit deduction: the committed state is returned
unchanged. -/
theorem c4_route_missing_subscription_arg (svc : Service) (payload : Params)
    (env : ResolveEnv) (st : EngineState) (now : ℤ) :
    route_execute_service (some svc) true payload env st now =
      (RouteResponse.error 500, st) := by
  have h : missingArgs execute_service_params route_execute_kwargs =
      [("subscription")] := rfl
  simp [route_execute_service, h]

/-- C3: any call whose credit checks pass and whose data resolution yields
NotFound terminates with the not-found outcome and leaves the committed state
exactly as it was: the account's credits_used, any subscription's
credits_remaining, and the usage-log table are unchanged, so
credits_deducted = 0 — a failed resolution is never billed
(service_engine.py L109-114 re-raises the HTTPException 404 of L211-214 before
the deduction at L116-119 can run). -/
theorem c3_notfound_never_billed (service : Service) (payload : Params)
    (env : ResolveEnv) (st : EngineState) (now : ℤ)
    (hcheck : credit_check service st now = none)
    (hnf : execute_service_logic service.slug payload env = LogicResult.notFound) :
    execute_service service payload env st now = (Outcome.notFound, st) := by
  simp [execute_service, hcheck, hnf]

def c3_st : EngineState := ⟨⟨10, 0⟩, none, []⟩
def c3_svc : Service := ⟨("vehicle-rc-verification"), 5⟩
def c3_payload : Params := [(("reg_no"), ("TR02AC1234"))]

/-- C3 witness: an RC verification with sufficient credits, no cached record
and no providers terminates NotFound with the state unchanged. -/
theorem c3_notfound_never_billed_witness :
    execute_service c3_svc c3_payload env_empty c3_st 0 =
      (Outcome.notFound, c3_st) :=
  c3_notfound_never_billed c3_svc c3_payload env_empty c3_st 0
    (by decide) (by decide)

/-- C10 counterexample: the claim "the call always raises a type error …
for any input payload" fails on a payload without dl_no: the engine raises
ValueError ("dl_no is required", mapped to 400) before reaching the
fetch_licence_data call, so no TypeError occurs there. -/
theorem c10_licence_empty_payload_cex :
    execute_service_logic ("driving-licence") [] env_empty =
      LogicResult.valueError ∧
    LogicResult.valueError ≠ LogicResult.typeError := by
  exact ⟨rfl, by decide⟩

/-- C10 (amended): for every payload that supplies a (non-empty) dl_no or
dlNo, the driving-licence branch invokes fetch_licence_data with only the
licence number, omitting its required `dob` parameter, so the call raises
TypeError (an internal error); and for no payload whatsoever does the branch
return licence data (payloads without dl_no raise ValueError instead). -/
theorem c10_licence_type_error_amended (payload : Params) (env : ResolveEnv) :
    (truthy (pyOr (payload.lookup ("dl_no")) (payload.lookup ("dlNo"))) = true →
      execute_service_logic ("driving-licence") payload env =
        LogicResult.typeError) ∧
    ∀ p s, execute_service_logic ("driving-licence") payload env ≠
      LogicResult.ok p s := by
  have hmiss : missingArgs fetch_licence_data_params engine_fetch_licence_args =
      [("dob")] := rfl
  constructor
  · intro ht
    simp [execute_service_logic, ht, hmiss]
  · intro p s
    cases ht : truthy (pyOr (payload.lookup ("dl_no")) (payload.lookup ("dlNo"))) with
    | true => simp [execute_service_logic, ht, hmiss]
    | false => simp [execute_service_logic, ht]

def c10_payload : Params := [(("dl_no"), ("MH0120200012345"))]

/-- C10 witness: a payload supplying dl_no makes the branch raise TypeError. -/
theorem c10_licence_type_error_amended_witness :
    execute_service_logic ("driving-licence") c10_payload env_empty =
      LogicResult.typeError :=
  (c10_licence_type_error_amended c10_payload env_empty).1 (by decide)

/-- Account with no credits, but an active, unexpired subscription holding 5
credits for this service. -/
def c2_st : EngineState := ⟨⟨0, 0⟩, some ⟨SubStatus.active, 5, none⟩, []⟩
def c2_svc : Service := ⟨("vehicle-rc-verification"), 5⟩
def c2_payload : Params := [(("reg_no"), ("UP32AB1111"))]
/-- A fresh cached RC record, so resolution succeeds from the cache. -/
def c2_env : ResolveEnv := ⟨some ⟨("rc-record"), some ⟨0, none⟩⟩, 0, []⟩

/-- C2: the invariant `used <= total_allocated` is not maintained by the
engine's billing logic.  With a subscription present, the credit checks
(service_engine.py L81-106) look only at the subscription's status, expiry and
credits_remaining — never at the account — while the deduction (L116-119)
unconditionally adds the price to user.credits_used.  On an account with
total_credits = 0 carrying a 5-credit subscription, a 5-credit call passes the
checks and the deduction yields credits_used = 5 > 0 = total_credits.  In the
source as written this state then fails to commit for an unrelated reason:
the ApiUsageLog constructor raises TypeError (the `success` kwarg, L142)
before db.commit(), so the call aborts with the state rolled back — no
execution can commit at all, successful ones included. -/
theorem c2_subscription_double_booking_demo :
    credit_check c2_svc c2_st 0 = none ∧
    (deduct_credits c2_st c2_svc.price_per_call).user.credits_used = 5 ∧
    (deduct_credits c2_st c2_svc.price_per_call).user.total_credits = 0 ∧
    ¬ ((deduct_credits c2_st c2_svc.price_per_call).user.credits_used ≤
       (deduct_credits c2_st c2_svc.price_per_call).user.total_credits) ∧
    execute_service c2_svc c2_payload c2_env c2_st 0 =
      (Outcome.typeError, c2_st) := by
  refine ⟨?_, ?_, ?_, ?_, ?_⟩ <;> decide

/-- Account with plenty of credits, no subscription. -/
def c8_st : EngineState := ⟨⟨100, 0⟩, none, []⟩
def c8_svc : Service := ⟨("vehicle-rc-verification"), 10⟩
def c8_payload : Params := [(("reg_no"), ("DL8CAF5031"))]
/-- A fresh cached RC record: resolution succeeds. -/
def c8_env_hit : ResolveEnv := ⟨some ⟨("rc-record-fresh"), some ⟨0, none⟩⟩, 0, []⟩

/-- C8: no call attempt through the engine ever creates a UsageRecord.  The
root cause on the success path: the engine passes `success=` to ApiUsageLog
(service_engine.py L142) but ApiUsageLog has no such mapped attribute, so the
declarative constructor raises TypeError before db.add/db.commit; failing
attempts (here a NotFound resolution) raise before the constructor is even
reached.  Both a NotFound attempt and a fully successful attempt leave the
usage-log table empty — not the one record per attempt the claim requires. -/
theorem c8_no_usage_record_demo :
    invalidKwargs api_usage_log_attrs engine_usage_log_kwargs = [("success")] ∧
    execute_service c8_svc c8_payload env_empty c8_st 0 =
      (Outcome.notFound, c8_st) ∧
    (execute_service c8_svc c8_payload env_empty c8_st 0).2.usage_logs = [] ∧
    execute_service c8_svc c8_payload c8_env_hit c8_st 0 =
      (Outcome.typeError, c8_st) ∧
    (execute_service c8_svc c8_payload c8_env_hit c8_st 0).2.usage_logs = [] := by
  refine ⟨?_, ?_, ?_, ?_, ?_⟩ <;> decide

/-- Two concurrent 10-credit calls against one account with total_credits = 10
and credits_used = 0 (remaining R = 10, amount a = 10, so ⌊R/a⌋ = 1). -/
def c1_sim0 : LedgerSim := ⟨10, 10, 0, [CallPhase.ready, CallPhase.ready]⟩

/-- C1: the credit check and the debit are not applied as a single atomic
unit.  Under the interleaving check₀, check₁, debit₀, debit₁ — available
because the check (service_engine.py L103) and the deduction (L119) are
separated by the awaited service logic (L110) with no lock, SELECT FOR UPDATE
or serializable transaction — both calls read remaining = 10 and pass the
check, and both apply a 10-credit debit computed from the same snapshot: 2
calls debit where the claim allows at most ⌊R/a⌋ = 10/10 = 1, the classic
lost-update race.  Moreover no debit ever commits (committed_used stays 0):
every call aborts at the ApiUsageLog constructor before db.commit(), so the
specified outcome (exactly ⌊R/a⌋ calls successfully debiting) is not produced
either. -/
theorem c1_unlocked_check_debit_race_demo :
    (c1_sim0.run [0, 1, 0, 1]).calls =
      [CallPhase.aborted 10, CallPhase.aborted 10] ∧
    (c1_sim0.run [0, 1, 0, 1]).debitedCount = 2 ∧
    (10 : ℤ) / 10 = 1 ∧
    (c1_sim0.run [0, 1, 0, 1]).committed_used = 0 := by
  refine ⟨?_, ?_, ?_, ?_⟩ <;> decide
